import Mathlib

/-!
Verification of the thread-local random number generator facility
(`src/src/rngs/thread.rs`): the `ThreadRng` handle, the `thread_rng`
accessor, the lazily initialized `THREAD_RNG_KEY` thread-local cell, and
the reseeding byte-budget state machine that the thread-local generator
delegates to.

The repository ships only `src/src/rngs/thread.rs`.  The `ReseedingRng`
adapter and the `EntropyRng` source it names live elsewhere in the
repository and are not part of the provided sources, so they are modelled
from the specification (sections 3 and 4.1): a `ReseedingGenerator`
wrapping a core generator and an entropy source, tracking
`bytes_until_reseed`, reseeding all-or-nothing before an emission once the
budget is exhausted.  The HC-128 core (`Hc128Core`, external crate
`rand_hc`) is modelled through its generic contract only: a deterministic
keyed state that emits words and bytes and can be fully replaced by a
reseed.
-/

namespace RandThread

/-- Modelled from the spec: the `CoreGenerator` external collaborator
(`Hc128Core` in the source), consumed only through the generic contract
"produces 32-bit/64-bit words and byte buffers from internal state,
reseedable from a key; deterministic given its key/state".  The opaque
keyed state is modelled as a key plus a stream position; the concrete
mixing function is irrelevant to every claim, only determinism and full
replacement on reseed matter. -/
structure CoreGenerator where
  key : Nat
  pos : Nat
deriving DecidableEq

/-- Full replacement of the core state from fresh key material
(the "reseed(key material)" operation of the core contract). -/
def CoreGenerator.reseed (k : Nat) : CoreGenerator :=
  { key := k, pos := 0 }

/-- Deterministic emission of `n` bytes from the core state; advances the
stream position by `n`.  Each byte is reduced modulo `2^8`. -/
def CoreGenerator.emitBytes (c : CoreGenerator) (n : Nat) :
    List Nat × CoreGenerator :=
  ((List.range n).map (fun i => (c.key + c.pos + i) % 2 ^ 8),
   { c with pos := c.pos + n })

/-- Deterministic emission of one 32-bit word (4 bytes of budget). -/
def CoreGenerator.emitU32 (c : CoreGenerator) : Nat × CoreGenerator :=
  ((c.key + c.pos) % 2 ^ 32, { c with pos := c.pos + 4 })

/-- Deterministic emission of one 64-bit word (8 bytes of budget). -/
def CoreGenerator.emitU64 (c : CoreGenerator) : Nat × CoreGenerator :=
  ((c.key + c.pos) % 2 ^ 64, { c with pos := c.pos + 8 })

/-- Modelled from the spec: the `EntropySource` collaborator (the
repository's `EntropyRng`, whose source is not under `src/`): a fallible
"fill these bytes unpredictably" capability.  `supply i` is the outcome of
the i-th invocation — `some k` yields key material, `none` is an entropy
failure — and `calls` counts invocations performed so far, so tests can
make the N-th call fail and count reseed events. -/
structure EntropySource where
  supply : Nat → Option Nat
  calls : Nat

/-- One invocation of the entropy source: consume the next indexed outcome. -/
def EntropySource.draw (es : EntropySource) : Option Nat × EntropySource :=
  (es.supply es.calls, { es with calls := es.calls + 1 })

/-- Error taxonomy of the spec (section 7): `entropyUnavailable` when the
entropy source cannot supply bytes; `reseedFailed` wraps the entropy
failure encountered during a threshold-triggered reseed. -/
inductive RngError where
  | entropyUnavailable : RngError
  | reseedFailed : RngError → RngError
deriving DecidableEq

/-- A fatal, unrecoverable termination of the operation: the infallible
API surface promotes reseed errors to this instead of returning output. -/
inductive FatalError where
  | promoted : RngError → FatalError
deriving DecidableEq

/-- Modelled from the spec: the `ReseedingGenerator` (the repository's
`ReseedingRng` adapter, whose source is not under `src/`).  Wraps one
exclusively owned `CoreGenerator` and one `EntropySource` and tracks
`bytes_until_reseed`, a counter decremented by every byte emitted, against
a `threshold` fixed at construction. -/
structure ReseedingGenerator where
  inner : CoreGenerator
  entropy_source : EntropySource
  bytes_until_reseed : Int
  threshold : Nat

/-- `ReseedingRng::new(r, threshold, reseeder)`: wrap a freshly seeded
core, with the full byte budget available. -/
def ReseedingGenerator.new (r : CoreGenerator) (threshold : Nat)
    (reseeder : EntropySource) : ReseedingGenerator :=
  { inner := r, entropy_source := reseeder,
    bytes_until_reseed := (threshold : Int), threshold := threshold }

/-- Modelled from the spec (section 4.1): the check evaluated before every
emission.  If the byte budget is exhausted (`bytes_until_reseed ≤ 0`),
draw fresh key material from the entropy source, fully replace the core
state and reset the counter to the threshold; on entropy failure the
reseed fails as a whole and the core state is left untouched.  If budget
remains, do nothing. -/
def ReseedingGenerator.reseedCheck (g : ReseedingGenerator) :
    Except RngError Unit × ReseedingGenerator :=
  if g.bytes_until_reseed ≤ 0 then
    match g.entropy_source.draw with
    | (none, es2) =>
        (Except.error (RngError.reseedFailed RngError.entropyUnavailable),
         { g with entropy_source := es2 })
    | (some k, es2) =>
        (Except.ok (),
         { g with inner := CoreGenerator.reseed k,
                  entropy_source := es2,
                  bytes_until_reseed := (g.threshold : Int) })
  else (Except.ok (), g)

/-- Fallible fill: perform the reseed check, then emit `n` bytes from the
core and decrement the budget; a reseed failure is returned as a typed
error and no output is produced. -/
def ReseedingGenerator.try_fill_bytes (g : ReseedingGenerator) (n : Nat) :
    Except RngError (List Nat) × ReseedingGenerator :=
  match g.reseedCheck with
  | (Except.error e, g2) => (Except.error e, g2)
  | (Except.ok _, g2) =>
      let bc := g2.inner.emitBytes n
      (Except.ok bc.1,
       { g2 with inner := bc.2,
                 bytes_until_reseed := g2.bytes_until_reseed - (n : Int) })

/-- Infallible fill: same behaviour, but a reseed failure is promoted to a
fatal termination instead of returning (spec section 7: the infallible API
surface converts the error into a fatal, unrecoverable termination). -/
def ReseedingGenerator.fill_bytes (g : ReseedingGenerator) (n : Nat) :
    Except FatalError (List Nat × ReseedingGenerator) :=
  match g.try_fill_bytes n with
  | (Except.error e, _) => Except.error (FatalError.promoted e)
  | (Except.ok bs, g2) => Except.ok (bs, g2)

/-- Infallible 32-bit word emission (4 bytes of budget); reseed failures
are promoted to a fatal termination. -/
def ReseedingGenerator.next_u32 (g : ReseedingGenerator) :
    Except FatalError (Nat × ReseedingGenerator) :=
  match g.reseedCheck with
  | (Except.error e, _) => Except.error (FatalError.promoted e)
  | (Except.ok _, g2) =>
      let wc := g2.inner.emitU32
      Except.ok (wc.1,
        { g2 with inner := wc.2,
                  bytes_until_reseed := g2.bytes_until_reseed - 4 })

/-- Infallible 64-bit word emission (8 bytes of budget); reseed failures
are promoted to a fatal termination. -/
def ReseedingGenerator.next_u64 (g : ReseedingGenerator) :
    Except FatalError (Nat × ReseedingGenerator) :=
  match g.reseedCheck with
  | (Except.error e, _) => Except.error (FatalError.promoted e)
  | (Except.ok _, g2) =>
      let wc := g2.inner.emitU64
      Except.ok (wc.1,
        { g2 with inner := wc.2,
                  bytes_until_reseed := g2.bytes_until_reseed - 8 })

/-- A generation call on the facility: the four methods of
`impl RngCore for ThreadRng` (src/src/rngs/thread.rs:109-127). -/
inductive Op where
  | nextU32 : Op
  | nextU64 : Op
  | fillBytes (n : Nat) : Op
  | tryFillBytes (n : Nat) : Op
deriving DecidableEq

/-- Number of bytes of budget consumed by an emission. -/
def Op.bytes : Op → Nat
  | Op.nextU32 => 4
  | Op.nextU64 => 8
  | Op.fillBytes n => n
  | Op.tryFillBytes n => n

/-- Observable outcome of one generation call: successful output (word
values or buffer bytes), a typed error returned by the fallible surface,
or a fatal termination of the infallible surface. -/
inductive Outcome where
  | words (out : List Nat) : Outcome
  | typedErr (e : RngError) : Outcome
  | fatal (e : RngError) : Outcome
deriving DecidableEq

/-- One generation call on the reseeding generator, dispatching to the
four API methods.  On a fatal outcome the thread terminates, so the
post-state is never observed; it is returned unchanged for totality. -/
def ReseedingGenerator.step (g : ReseedingGenerator) : Op → Outcome × ReseedingGenerator
  | Op.nextU32 =>
      match g.next_u32 with
      | Except.error (FatalError.promoted e) => (Outcome.fatal e, g)
      | Except.ok (w, g2) => (Outcome.words [w], g2)
  | Op.nextU64 =>
      match g.next_u64 with
      | Except.error (FatalError.promoted e) => (Outcome.fatal e, g)
      | Except.ok (w, g2) => (Outcome.words [w], g2)
  | Op.fillBytes n =>
      match g.fill_bytes n with
      | Except.error (FatalError.promoted e) => (Outcome.fatal e, g)
      | Except.ok (bs, g2) => (Outcome.words bs, g2)
  | Op.tryFillBytes n =>
      match g.try_fill_bytes n with
      | (Except.error e, g2) => (Outcome.typedErr e, g2)
      | (Except.ok bs, g2) => (Outcome.words bs, g2)

/-- Run a sequence of generation calls; a fatal outcome aborts the run
(the thread has terminated), a typed error is returned to the caller who
may continue. -/
def ReseedingGenerator.run (g : ReseedingGenerator) :
    List Op → List Outcome × ReseedingGenerator
  | [] => ([], g)
  | op :: ops =>
      match g.step op with
      | (Outcome.fatal e, g2) => ([Outcome.fatal e], g2)
      | (Outcome.typedErr e, g2) =>
          let rest := g2.run ops
          (Outcome.typedErr e :: rest.1, rest.2)
      | (Outcome.words out, g2) =>
          let rest := g2.run ops
          (Outcome.words out :: rest.1, rest.2)

/-- `THREAD_RNG_RESEED_THRESHOLD` (src/src/rngs/thread.rs:42): number of
generated bytes after which the thread generator is reseeded. -/
def THREAD_RNG_RESEED_THRESHOLD : Nat := 32 * 1024 * 1024

/-- The external core seeding entry point `Hc128Core::from_rng` (crates
`rand_hc`/`rand_core`, external collaborators), through its generic
contract: draw key material from the given source and construct a fully
keyed core from it, failing exactly when the source fails. -/
def Hc128Core.from_rng (es : EntropySource) :
    Except String CoreGenerator × EntropySource :=
  match es.draw with
  | (none, es2) => (Except.error "entropy source unavailable", es2)
  | (some k, es2) => (Except.ok (CoreGenerator.reseed k), es2)

/-- The lazy initializer of `THREAD_RNG_KEY` (src/src/rngs/thread.rs:78-88):
create an entropy source, seed an HC-128 core from it — panicking with
"could not initialize thread_rng: ..." if seeding fails — and wrap it in a
reseeding generator with the fixed threshold, handing the same entropy
source over as the reseeder.  The panic is modelled as `Except.error`
carrying the panic message: no generator value exists on that path. -/
def threadRngInit (entropy_source : EntropySource) :
    Except String ReseedingGenerator :=
  match Hc128Core.from_rng entropy_source with
  | (Except.error err, _) =>
      Except.error ("could not initialize thread_rng: " ++ err)
  | (Except.ok r, es2) =>
      Except.ok (ReseedingGenerator.new r THREAD_RNG_RESEED_THRESHOLD es2)

/-- One thread's view of the thread-local storage: the address of the
`THREAD_RNG_KEY` cell, its contents (`none` before the lazy initializer
has run on this thread), and the entropy source the initializer would
consume on first access. -/
structure ThreadState where
  slotAddr : Nat
  slot : Option ReseedingGenerator
  fresh : EntropySource

/-- `ThreadRng` (src/src/rngs/thread.rs:72-76): essentially just a raw
pointer to the thread-local generator cell. -/
structure ThreadRng where
  rng : Nat
deriving DecidableEq

/-- `#[derive(Clone)]` on `ThreadRng`: cloning copies the raw pointer. -/
def ThreadRng.clone (h : ThreadRng) : ThreadRng :=
  { rng := h.rng }

/-- `thread_rng` (src/src/rngs/thread.rs:99-101):
`THREAD_RNG_KEY.with(|t| t.get())` — run the lazy initializer if this is
the thread's first access (propagating its panic as `Except.error`),
otherwise leave the stored instance untouched; in both cases return a
handle holding the address of the cell. -/
def thread_rng (ts : ThreadState) :
    Except String (ThreadRng × ThreadState) :=
  match ts.slot with
  | some _ => Except.ok ({ rng := ts.slotAddr }, ts)
  | none =>
      match threadRngInit ts.fresh with
      | Except.error msg => Except.error msg
      | Except.ok g =>
          Except.ok ({ rng := ts.slotAddr }, { ts with slot := some g })

/-- `impl Default for ThreadRng` (src/src/rngs/thread.rs:103-107):
`ThreadRng::default()` simply calls `thread_rng()`. -/
def ThreadRng.default (ts : ThreadState) :
    Except String (ThreadRng × ThreadState) :=
  thread_rng ts

/-- A generation call through a handle (`impl RngCore for ThreadRng`,
src/src/rngs/thread.rs:109-127): dereference the raw pointer and delegate
to the thread-local reseeding generator, writing its new state back into
the cell.  Dereferencing a pointer that does not address this thread's
initialized cell has no defined behaviour and yields `none`. -/
def ThreadRng.step (h : ThreadRng) (ts : ThreadState) (op : Op) :
    Option (Outcome × ThreadState) :=
  if h.rng = ts.slotAddr then
    match ts.slot with
    | none => none
    | some g =>
        let og := g.step op
        some (og.1, { ts with slot := some og.2 })
  else none

/-- Run interleaved generation calls through two handles on one thread:
each call is tagged with the handle that issues it.  A fatal outcome
aborts the run. -/
def runTagged (h1 h2 : ThreadRng) :
    ThreadState → List (Bool × Op) → Option (List Outcome × ThreadState)
  | ts, [] => some ([], ts)
  | ts, (tag, op) :: calls =>
      match ThreadRng.step (if tag then h1 else h2) ts op with
      | none => none
      | some (Outcome.fatal e, ts2) => some ([Outcome.fatal e], ts2)
      | some (Outcome.typedErr e, ts2) =>
          match runTagged h1 h2 ts2 calls with
          | none => none
          | some (os, ts3) => some (Outcome.typedErr e :: os, ts3)
      | some (Outcome.words out, ts2) =>
          match runTagged h1 h2 ts2 calls with
          | none => none
          | some (os, ts3) => some (Outcome.words out :: os, ts3)

/-- Run a sequence of generation calls all through one handle. -/
def runSingle (h : ThreadRng) :
    ThreadState → List Op → Option (List Outcome × ThreadState)
  | ts, [] => some ([], ts)
  | ts, op :: ops =>
      match h.step ts op with
      | none => none
      | some (Outcome.fatal e, ts2) => some ([Outcome.fatal e], ts2)
      | some (Outcome.typedErr e, ts2) =>
          match runSingle h ts2 ops with
          | none => none
          | some (os, ts3) => some (Outcome.typedErr e :: os, ts3)
      | some (Outcome.words out, ts2) =>
          match runSingle h ts2 ops with
          | none => none
          | some (os, ts3) => some (Outcome.words out :: os, ts3)

/-- Test fixture: an entropy source that fails on every invocation. -/
def esStuck : EntropySource :=
  { supply := fun _ => none, calls := 0 }

/-- Test fixture: an entropy source that yields the key `5` on every
invocation. -/
def esFive : EntropySource :=
  { supply := fun _ => some 5, calls := 0 }

/-- Test fixture: a core generator keyed with `0`. -/
def core0 : CoreGenerator :=
  CoreGenerator.reseed 0

/-- Test fixture: a reseeding generator with the spec's test-scaled
threshold of 16 bytes, over a failing entropy source. -/
def g16 : ReseedingGenerator :=
  ReseedingGenerator.new core0 16 esStuck

/-- Test fixture: a generator whose byte budget is exhausted
(`bytes_until_reseed = 0`), over a working entropy source. -/
def gLow : ReseedingGenerator :=
  { inner := core0, entropy_source := esFive,
    bytes_until_reseed := 0, threshold := 16 }

/-- The state of `gLow` after a 3-byte fallible fill: the reseed check
drew the key `5`, fully replaced the core and reset the budget to the
threshold before the emission decremented it by 3. -/
def gLowStepped : ReseedingGenerator :=
  { inner := { key := 5, pos := 3 },
    entropy_source := { supply := fun _ => some 5, calls := 1 },
    bytes_until_reseed := 13, threshold := 16 }

/-- Test fixture: a generator whose byte budget is exhausted, over a
failing entropy source. -/
def gLowStuck : ReseedingGenerator :=
  { inner := core0, entropy_source := esStuck,
    bytes_until_reseed := 0, threshold := 16 }

/-- Test fixture: a thread whose thread-local cell (at address 7) is not
yet initialized, with a working entropy source. -/
def tsFresh : ThreadState :=
  { slotAddr := 7, slot := none, fresh := esFive }

/-- Test fixture: a thread whose thread-local cell is not yet
initialized, with a failing entropy source. -/
def tsStuck : ThreadState :=
  { slotAddr := 7, slot := none, fresh := esStuck }

/-- The generator stored by the lazy initializer on `tsFresh`'s first
access: an HC-128 core keyed from the drawn entropy `5`, wrapped with the
fixed 32 MiB threshold and the advanced entropy source. -/
def gFresh : ReseedingGenerator :=
  ReseedingGenerator.new (CoreGenerator.reseed 5) THREAD_RNG_RESEED_THRESHOLD
    { supply := fun _ => some 5, calls := 1 }

/-- `tsFresh` after its first successful acquisition: the cell holds the
newly created generator. -/
def tsFilled : ThreadState :=
  { slotAddr := 7, slot := some gFresh, fresh := esFive }

/-- One generation step preserves the threshold field: no step of the
state machine ever writes it. -/
theorem step_preserves_threshold (g : ReseedingGenerator) (op : Op) :
    (g.step op).2.threshold = g.threshold := by
  by_cases hb : g.bytes_until_reseed ≤ 0 <;>
    cases hsup : g.entropy_source.supply g.entropy_source.calls <;>
    cases op <;>
      simp [ReseedingGenerator.step, ReseedingGenerator.next_u32,
        ReseedingGenerator.next_u64, ReseedingGenerator.fill_bytes,
        ReseedingGenerator.try_fill_bytes, ReseedingGenerator.reseedCheck,
        EntropySource.draw, hb, hsup]

/-- **C10**: `ThreadRng::default()` is the same operation as
`thread_rng()`: on every thread state it returns the identical result —
the same handle referencing the same thread-local generator instance, and
the same post-state. -/
theorem c10_default_is_thread_rng (ts : ThreadState) :
    ThreadRng.default ts = thread_rng ts := rfl

/-- **C7**: the reseed threshold is the fixed build-time constant
32 MiB = 32*1024*1024 bytes; the generator created by the thread-local
initializer carries exactly this threshold, and no sequence of generation
calls ever changes the threshold field at runtime. -/
theorem c7_threshold_fixed :
    THREAD_RNG_RESEED_THRESHOLD = 32 * 1024 * 1024 ∧
    (∀ es g, threadRngInit es = Except.ok g →
        g.threshold = THREAD_RNG_RESEED_THRESHOLD) ∧
    (∀ g : ReseedingGenerator, ∀ ops : List Op,
        (g.run ops).2.threshold = g.threshold) := by
  refine ⟨rfl, ?_, ?_⟩
  · intro es g hinit
    unfold threadRngInit Hc128Core.from_rng EntropySource.draw at hinit
    cases hsup : es.supply es.calls <;> simp [hsup] at hinit
    subst hinit
    rfl
  · intro g ops
    induction ops generalizing g with
    | nil => rfl
    | cons op rest ih =>
        have hpres := step_preserves_threshold g op
        unfold ReseedingGenerator.run
        cases hstep : g.step op with
        | mk o g2 =>
            rw [hstep] at hpres
            cases o <;> simp [ih g2] <;> exact hpres

/-- Witness for C7: the initializer run on the concrete entropy source
`esFive` yields the concrete generator `gFresh`, whose threshold is the
32 MiB constant. -/
theorem c7_threshold_fixed_witness :
    threadRngInit esFive = Except.ok gFresh ∧
    gFresh.threshold = THREAD_RNG_RESEED_THRESHOLD :=
  ⟨rfl, c7_threshold_fixed.2.1 esFive gFresh rfl⟩

/-- **C5**: cloning a handle copies the raw pointer, so both handles
dereference into the same thread-local generator: a clone equals the
original handle, and any interleaving of generation calls across the
original and the clone produces exactly the outcomes and final state of a
single handle issuing the same calls in the same order. -/
theorem c5_clone_aliases_same_generator (h : ThreadRng) (ts : ThreadState)
    (calls : List (Bool × Op)) :
    h.clone = h ∧
    runTagged h h.clone ts calls = runSingle h ts (calls.map Prod.snd) := by
  have hc : h.clone = h := rfl
  refine ⟨hc, ?_⟩
  rw [hc]
  induction calls generalizing ts with
  | nil => rfl
  | cons c rest ih =>
      obtain ⟨tag, op⟩ := c
      simp only [runTagged, runSingle, List.map_cons, ite_self]
      cases hstep : ThreadRng.step h ts op with
      | none => rfl
      | some ots =>
          obtain ⟨o, ts2⟩ := ots
          cases o <;> simp [ih]

/-- **C6**: the thread-local cell holds exactly one generator per thread.
A successful acquisition returns a handle addressing the thread's cell;
if the cell was already initialized the state is completely unchanged (no
re-creation), if it was empty the cell now holds exactly the generator
built by the lazy initializer; and every subsequent acquisition on the
resulting state returns the same handle and leaves the state untouched. -/
theorem c6_cache_exactly_one_instance (ts ts2 : ThreadState) (h : ThreadRng)
    (hacq : thread_rng ts = Except.ok (h, ts2)) :
    h.rng = ts.slotAddr ∧
    (∀ g, ts.slot = some g → ts2 = ts) ∧
    (ts.slot = none →
       ∃ g, threadRngInit ts.fresh = Except.ok g ∧
         ts2 = { ts with slot := some g }) ∧
    thread_rng ts2 = Except.ok (h, ts2) := by
  cases hslot : ts.slot with
  | some g0 =>
      unfold thread_rng at hacq
      rw [hslot] at hacq
      simp only [Except.ok.injEq, Prod.mk.injEq] at hacq
      obtain ⟨hh, hts⟩ := hacq
      subst hts
      subst hh
      refine ⟨rfl, fun g hg => rfl, fun hnone => Option.noConfusion hnone, ?_⟩
      unfold thread_rng
      rw [hslot]
  | none =>
      unfold thread_rng at hacq
      rw [hslot] at hacq
      cases hinit : threadRngInit ts.fresh with
      | error msg => rw [hinit] at hacq; cases hacq
      | ok g =>
          rw [hinit] at hacq
          simp only [Except.ok.injEq, Prod.mk.injEq] at hacq
          obtain ⟨hh, hts⟩ := hacq
          subst hts
          subst hh
          exact ⟨rfl, fun g0 hg0 => Option.noConfusion hg0,
            fun _ => ⟨g, rfl, rfl⟩, rfl⟩

/-- Witness for C6: acquiring on the concrete fresh thread `tsFresh`
yields the handle at address 7 and the filled state `tsFilled`, on which
the theorem's conclusions hold. -/
theorem c6_cache_exactly_one_instance_witness :
    thread_rng tsFresh = Except.ok (ThreadRng.mk 7, tsFilled) ∧
    ((ThreadRng.mk 7).rng = tsFresh.slotAddr ∧
     (∀ g, tsFresh.slot = some g → tsFilled = tsFresh) ∧
     (tsFresh.slot = none →
        ∃ g, threadRngInit tsFresh.fresh = Except.ok g ∧
          tsFilled = { tsFresh with slot := some g }) ∧
     thread_rng tsFilled = Except.ok (ThreadRng.mk 7, tsFilled)) :=
  ⟨rfl, c6_cache_exactly_one_instance tsFresh tsFilled (ThreadRng.mk 7) rfl⟩

/-- **C2**: acquisition fails, fatally, exactly when first-access seeding
cannot obtain entropy: the returned panic message identifies the
initialization failure and its entropy cause, and no generator is stored
on that path (the error carries no handle or state).  On success the
handle addresses the thread's cell, and a first access stores a generator
keyed from the entropy actually drawn — never a zero-seeded one. -/
theorem c2_acquire_fails_closed (ts : ThreadState) :
    (∀ msg, thread_rng ts = Except.error msg ↔
        (ts.slot = none ∧ ts.fresh.supply ts.fresh.calls = none ∧
         msg = "could not initialize thread_rng: entropy source unavailable")) ∧
    (∀ h ts2, thread_rng ts = Except.ok (h, ts2) →
        h.rng = ts.slotAddr ∧
        (ts.slot = none →
          ∃ k, ts.fresh.supply ts.fresh.calls = some k ∧
            ts2.slot = some (ReseedingGenerator.new (CoreGenerator.reseed k)
              THREAD_RNG_RESEED_THRESHOLD
              { supply := ts.fresh.supply, calls := ts.fresh.calls + 1 }))) := by
  constructor
  · intro msg
    cases hslot : ts.slot with
    | some g0 => simp [thread_rng, hslot]
    | none =>
        cases hsup : ts.fresh.supply ts.fresh.calls with
        | none =>
            simp [thread_rng, hslot, threadRngInit, Hc128Core.from_rng,
              EntropySource.draw, hsup, eq_comm]
        | some k =>
            simp [thread_rng, hslot, threadRngInit, Hc128Core.from_rng,
              EntropySource.draw, hsup]
  · intro h ts2 hacq
    cases hslot : ts.slot with
    | some g0 =>
        unfold thread_rng at hacq
        rw [hslot] at hacq
        simp only [Except.ok.injEq, Prod.mk.injEq] at hacq
        obtain ⟨hh, hts⟩ := hacq
        subst hts
        subst hh
        exact ⟨rfl, fun hnone => Option.noConfusion hnone⟩
    | none =>
        unfold thread_rng at hacq
        rw [hslot] at hacq
        cases hsup : ts.fresh.supply ts.fresh.calls with
        | none =>
            simp [threadRngInit, Hc128Core.from_rng, EntropySource.draw,
              hsup] at hacq
        | some k =>
            simp only [threadRngInit, Hc128Core.from_rng, EntropySource.draw,
              hsup, Except.ok.injEq, Prod.mk.injEq] at hacq
            obtain ⟨hh, hts⟩ := hacq
            subst hts
            subst hh
            exact ⟨rfl, fun _ => ⟨k, rfl, rfl⟩⟩

/-- Witness for C2: on the concrete thread `tsStuck` whose entropy source
always fails, acquisition returns exactly the loud initialization
diagnostic; on the concrete thread `tsFresh` it succeeds and stores the
generator keyed from the drawn entropy `5`. -/
theorem c2_acquire_fails_closed_witness :
    (thread_rng tsStuck =
       Except.error "could not initialize thread_rng: entropy source unavailable") ∧
    ((ThreadRng.mk 7).rng = tsFresh.slotAddr ∧
     (tsFresh.slot = none →
        ∃ k, tsFresh.fresh.supply tsFresh.fresh.calls = some k ∧
          tsFilled.slot = some (ReseedingGenerator.new (CoreGenerator.reseed k)
            THREAD_RNG_RESEED_THRESHOLD
            { supply := tsFresh.fresh.supply, calls := tsFresh.fresh.calls + 1 }))) :=
  ⟨((c2_acquire_fails_closed tsStuck).1
      "could not initialize thread_rng: entropy source unavailable").mpr
      ⟨rfl, rfl, rfl⟩,
   (c2_acquire_fails_closed tsFresh).2 (ThreadRng.mk 7) tsFilled rfl⟩

/-- **C3**: `try_fill_bytes` always returns a `Result`.  When the budget
is exhausted and the entropy source fails during the threshold-triggered
reseed, it returns the typed reseed error to the caller after exactly one
entropy invocation (no internal retry); in every other case it returns
`Ok` with the buffer completely filled (`n` bytes). -/
theorem c3_try_fill_bytes_surfaces_errors (g : ReseedingGenerator) (n : Nat) :
    (g.bytes_until_reseed ≤ 0 →
       g.entropy_source.supply g.entropy_source.calls = none →
       (g.try_fill_bytes n).1 =
           Except.error (RngError.reseedFailed RngError.entropyUnavailable) ∧
       (g.try_fill_bytes n).2.entropy_source.calls =
           g.entropy_source.calls + 1) ∧
    (g.bytes_until_reseed ≤ 0 →
       ∀ k, g.entropy_source.supply g.entropy_source.calls = some k →
         ∃ bs, (g.try_fill_bytes n).1 = Except.ok bs ∧ bs.length = n) ∧
    (0 < g.bytes_until_reseed →
       ∃ bs, (g.try_fill_bytes n).1 = Except.ok bs ∧ bs.length = n ∧
         (g.try_fill_bytes n).2.entropy_source.calls =
           g.entropy_source.calls) := by
  refine ⟨fun hb hsup => ?_, fun hb k hsup => ?_, fun hb => ?_⟩
  · simp [ReseedingGenerator.try_fill_bytes, ReseedingGenerator.reseedCheck,
      EntropySource.draw, hb, hsup]
  · have heq : (g.try_fill_bytes n).1 =
        Except.ok ((CoreGenerator.reseed k).emitBytes n).1 := by
      simp [ReseedingGenerator.try_fill_bytes, ReseedingGenerator.reseedCheck,
        EntropySource.draw, hb, hsup]
    exact ⟨_, heq, by simp [CoreGenerator.emitBytes]⟩
  · have hb2 : ¬ g.bytes_until_reseed ≤ 0 := not_le.mpr hb
    have heq : (g.try_fill_bytes n).1 =
        Except.ok (g.inner.emitBytes n).1 := by
      simp [ReseedingGenerator.try_fill_bytes, ReseedingGenerator.reseedCheck,
        hb2]
    have hcalls : (g.try_fill_bytes n).2.entropy_source.calls =
        g.entropy_source.calls := by
      simp [ReseedingGenerator.try_fill_bytes, ReseedingGenerator.reseedCheck,
        hb2]
    exact ⟨_, heq, by simp [CoreGenerator.emitBytes], hcalls⟩

/-- Witness for C3: on the exhausted generator `gLowStuck` (failing
entropy) the fallible fill returns the typed reseed error after exactly
one entropy invocation; on `g16` (full budget of 16) a 5-byte fill
succeeds with a full buffer and no entropy invocation. -/
theorem c3_try_fill_bytes_surfaces_errors_witness :
    ((gLowStuck.try_fill_bytes 5).1 =
        Except.error (RngError.reseedFailed RngError.entropyUnavailable) ∧
     (gLowStuck.try_fill_bytes 5).2.entropy_source.calls =
        gLowStuck.entropy_source.calls + 1) ∧
    (∃ bs, (g16.try_fill_bytes 5).1 = Except.ok bs ∧ bs.length = 5 ∧
       (g16.try_fill_bytes 5).2.entropy_source.calls =
         g16.entropy_source.calls) :=
  ⟨(c3_try_fill_bytes_surfaces_errors gLowStuck 5).1 (by decide) rfl,
   (c3_try_fill_bytes_surfaces_errors g16 5).2.2 (by decide)⟩

/-- **C4**: the infallible surface is total once the generator exists:
unless the call needs a reseed whose entropy draw fails, `next_u32` and
`next_u64` return a word in range and `fill_bytes` fills the buffer
completely; and when the reseed does fail these calls end in a promoted
fatal error rather than returning any partial, zero or stale output. -/
theorem c4_infallible_word_or_fatal (g : ReseedingGenerator) :
    (g.bytes_until_reseed ≤ 0 →
       g.entropy_source.supply g.entropy_source.calls = none →
       g.next_u32 = Except.error (FatalError.promoted
           (RngError.reseedFailed RngError.entropyUnavailable)) ∧
       g.next_u64 = Except.error (FatalError.promoted
           (RngError.reseedFailed RngError.entropyUnavailable)) ∧
       ∀ n, g.fill_bytes n = Except.error (FatalError.promoted
           (RngError.reseedFailed RngError.entropyUnavailable))) ∧
    ((0 < g.bytes_until_reseed ∨
        ∃ k, g.entropy_source.supply g.entropy_source.calls = some k) →
       (∃ w g2, g.next_u32 = Except.ok (w, g2) ∧ w < 2 ^ 32) ∧
       (∃ w g2, g.next_u64 = Except.ok (w, g2) ∧ w < 2 ^ 64) ∧
       (∀ n, ∃ bs g2, g.fill_bytes n = Except.ok (bs, g2) ∧
          bs.length = n)) := by
  constructor
  · intro hb hsup
    refine ⟨?_, ?_, fun n => ?_⟩ <;>
      simp [ReseedingGenerator.next_u32, ReseedingGenerator.next_u64,
        ReseedingGenerator.fill_bytes, ReseedingGenerator.try_fill_bytes,
        ReseedingGenerator.reseedCheck, EntropySource.draw, hb, hsup]
  · intro hok
    have hcheck : ∃ gr, g.reseedCheck = (Except.ok (), gr) := by
      rcases hok with hb | ⟨k, hsup⟩
      · exact ⟨g, by simp [ReseedingGenerator.reseedCheck, not_le.mpr hb]⟩
      · by_cases hb : g.bytes_until_reseed ≤ 0
        · exact ⟨(g.reseedCheck).2,
            by simp [ReseedingGenerator.reseedCheck, EntropySource.draw,
              hb, hsup]⟩
        · exact ⟨g, by simp [ReseedingGenerator.reseedCheck, hb]⟩
    obtain ⟨gr, hcheck⟩ := hcheck
    have h32 : g.next_u32 = Except.ok (gr.inner.emitU32.1,
        { gr with inner := gr.inner.emitU32.2,
                  bytes_until_reseed := gr.bytes_until_reseed - 4 }) := by
      simp [ReseedingGenerator.next_u32, hcheck]
    have h64 : g.next_u64 = Except.ok (gr.inner.emitU64.1,
        { gr with inner := gr.inner.emitU64.2,
                  bytes_until_reseed := gr.bytes_until_reseed - 8 }) := by
      simp [ReseedingGenerator.next_u64, hcheck]
    have hfill : ∀ n, g.fill_bytes n = Except.ok ((gr.inner.emitBytes n).1,
        { gr with inner := (gr.inner.emitBytes n).2,
                  bytes_until_reseed := gr.bytes_until_reseed - (n : Int) }) := by
      intro n
      simp [ReseedingGenerator.fill_bytes, ReseedingGenerator.try_fill_bytes,
        hcheck]
    refine ⟨⟨gr.inner.emitU32.1, _, h32, ?_⟩,
      ⟨gr.inner.emitU64.1, _, h64, ?_⟩,
      fun n => ⟨(gr.inner.emitBytes n).1, _, hfill n, ?_⟩⟩
    · exact Nat.mod_lt _ (by norm_num)
    · exact Nat.mod_lt _ (by norm_num)
    · simp [CoreGenerator.emitBytes]

/-- Witness for C4: on the exhausted generator `gLowStuck` all three
infallible calls end in the promoted fatal reseed error; on `g16` the
word calls return in-range words. -/
theorem c4_infallible_word_or_fatal_witness :
    (gLowStuck.next_u32 = Except.error (FatalError.promoted
        (RngError.reseedFailed RngError.entropyUnavailable)) ∧
     gLowStuck.next_u64 = Except.error (FatalError.promoted
        (RngError.reseedFailed RngError.entropyUnavailable)) ∧
     ∀ n, gLowStuck.fill_bytes n = Except.error (FatalError.promoted
        (RngError.reseedFailed RngError.entropyUnavailable))) ∧
    ((∃ w g2, g16.next_u32 = Except.ok (w, g2) ∧ w < 2 ^ 32) ∧
     (∃ w g2, g16.next_u64 = Except.ok (w, g2) ∧ w < 2 ^ 64) ∧
     (∀ n, ∃ bs g2, g16.fill_bytes n = Except.ok (bs, g2) ∧
        bs.length = n)) :=
  ⟨(c4_infallible_word_or_fatal gLowStuck).1 (by decide) rfl,
   (c4_infallible_word_or_fatal g16).2 (Or.inl (by decide))⟩

/-- **C8**: reseeding is all-or-nothing.  If the fallible fill returns an
error, the core generator and the byte budget are exactly as before the
call and no output is produced; if it returns output, the post-call core
is either the pre-call core advanced by the emission (no reseed happened)
or a core fully replaced by the key actually drawn from the entropy
source and then advanced by the emission — never a half-seeded state. -/
theorem c8_reseed_all_or_nothing (g : ReseedingGenerator) (n : Nat) :
    (∀ e, (g.try_fill_bytes n).1 = Except.error e →
        (g.try_fill_bytes n).2.inner = g.inner ∧
        (g.try_fill_bytes n).2.bytes_until_reseed = g.bytes_until_reseed ∧
        e = RngError.reseedFailed RngError.entropyUnavailable) ∧
    (∀ bs, (g.try_fill_bytes n).1 = Except.ok bs →
        (g.try_fill_bytes n).2.inner = (g.inner.emitBytes n).2 ∨
        ∃ k, g.entropy_source.supply g.entropy_source.calls = some k ∧
          (g.try_fill_bytes n).2.inner =
            ((CoreGenerator.reseed k).emitBytes n).2) := by
  by_cases hb : g.bytes_until_reseed ≤ 0
  · cases hsup : g.entropy_source.supply g.entropy_source.calls with
    | none =>
        refine ⟨fun e he => ⟨?_, ?_, ?_⟩, fun bs hbs => ?_⟩
        · simp [ReseedingGenerator.try_fill_bytes,
            ReseedingGenerator.reseedCheck, EntropySource.draw, hb, hsup]
        · simp [ReseedingGenerator.try_fill_bytes,
            ReseedingGenerator.reseedCheck, EntropySource.draw, hb, hsup]
        · simp [ReseedingGenerator.try_fill_bytes,
            ReseedingGenerator.reseedCheck, EntropySource.draw, hb, hsup]
            at he
          exact he.symm
        · simp [ReseedingGenerator.try_fill_bytes,
            ReseedingGenerator.reseedCheck, EntropySource.draw, hb, hsup]
            at hbs
    | some k =>
        refine ⟨fun e he => ?_, fun bs hbs => ?_⟩
        · simp [ReseedingGenerator.try_fill_bytes,
            ReseedingGenerator.reseedCheck, EntropySource.draw, hb, hsup]
            at he
        · refine Or.inr ⟨k, rfl, ?_⟩
          simp [ReseedingGenerator.try_fill_bytes,
            ReseedingGenerator.reseedCheck, EntropySource.draw, hb, hsup]
  · refine ⟨fun e he => ?_, fun bs hbs => ?_⟩
    · simp [ReseedingGenerator.try_fill_bytes,
        ReseedingGenerator.reseedCheck, EntropySource.draw, hb] at he
    · refine Or.inl ?_
      simp [ReseedingGenerator.try_fill_bytes,
        ReseedingGenerator.reseedCheck, EntropySource.draw, hb]

/-- Witness for C8: on `gLowStuck` the failed fill leaves the core and
the budget untouched and reports the typed reseed error; on `gLow`
(working entropy) the fill output comes from a core fully replaced by the
drawn key `5` and advanced by the emission. -/
theorem c8_reseed_all_or_nothing_witness :
    ((gLowStuck.try_fill_bytes 5).1 =
        Except.error (RngError.reseedFailed RngError.entropyUnavailable) ∧
     ((gLowStuck.try_fill_bytes 5).2.inner = gLowStuck.inner ∧
      (gLowStuck.try_fill_bytes 5).2.bytes_until_reseed =
        gLowStuck.bytes_until_reseed ∧
      RngError.reseedFailed RngError.entropyUnavailable =
        RngError.reseedFailed RngError.entropyUnavailable)) ∧
    ((gLow.try_fill_bytes 5).1 = Except.ok [5, 6, 7, 8, 9] ∧
     ((gLow.try_fill_bytes 5).2.inner = (gLow.inner.emitBytes 5).2 ∨
      ∃ k, gLow.entropy_source.supply gLow.entropy_source.calls = some k ∧
        (gLow.try_fill_bytes 5).2.inner =
          ((CoreGenerator.reseed k).emitBytes 5).2)) :=
  ⟨⟨rfl, (c8_reseed_all_or_nothing gLowStuck 5).1
      (RngError.reseedFailed RngError.entropyUnavailable) rfl⟩,
   ⟨rfl, (c8_reseed_all_or_nothing gLow 5).2 [5, 6, 7, 8, 9] rfl⟩⟩

/-- **C1** counterexample: with the spec's test-scaled threshold of 16
bytes, two 10-byte fallible fills both return output, yet after the run
the byte-budget counter is observed at -4 < 0 and the entropy source was
never invoked: 20 bytes — more than the configured threshold — were
emitted since the last reseed without any reseed being triggered, and the
counter did not stay ≥ 0 between observations. -/
theorem c1_counterexample :
    (g16.run [Op.tryFillBytes 10, Op.tryFillBytes 10]).1 =
      [Outcome.words [0, 1, 2, 3, 4, 5, 6, 7, 8, 9],
       Outcome.words [10, 11, 12, 13, 14, 15, 16, 17, 18, 19]] ∧
    (g16.run [Op.tryFillBytes 10, Op.tryFillBytes 10]).2.bytes_until_reseed
      = -4 ∧
    (g16.run [Op.tryFillBytes 10, Op.tryFillBytes 10]).2.entropy_source.calls
      = 0 ∧
    g16.threshold = 16 := by
  refine ⟨by decide, by decide, by decide, rfl⟩

/-- **C1** (amended): the byte-budget counter is decremented by the
number of bytes of each emission and may become negative when a single
emission overshoots the remaining budget; whenever the counter is ≤ 0, a
reseed from the entropy source is performed — exactly one entropy
invocation — and the counter is reset to the threshold before that call's
output is returned, so every emission starts within the byte budget. -/
theorem c1_budget_discipline (g : ReseedingGenerator) (op : Op)
    (out : List Nat) (g2 : ReseedingGenerator)
    (hstep : g.step op = (Outcome.words out, g2)) :
    (g.bytes_until_reseed ≤ 0 →
       ∃ k, g.entropy_source.supply g.entropy_source.calls = some k ∧
         g2.entropy_source.calls = g.entropy_source.calls + 1 ∧
         g2.bytes_until_reseed = (g.threshold : Int) - (op.bytes : Int)) ∧
    (0 < g.bytes_until_reseed →
       g2.entropy_source.calls = g.entropy_source.calls ∧
       g2.bytes_until_reseed = g.bytes_until_reseed - (op.bytes : Int)) := by
  constructor
  · intro hb
    cases hsup : g.entropy_source.supply g.entropy_source.calls with
    | none =>
        exfalso
        cases op <;>
          simp [ReseedingGenerator.step, ReseedingGenerator.next_u32,
            ReseedingGenerator.next_u64, ReseedingGenerator.fill_bytes,
            ReseedingGenerator.try_fill_bytes, ReseedingGenerator.reseedCheck,
            EntropySource.draw, hb, hsup] at hstep
    | some k =>
        refine ⟨k, rfl, ?_⟩
        cases op <;>
          (simp [ReseedingGenerator.step, ReseedingGenerator.next_u32,
             ReseedingGenerator.next_u64, ReseedingGenerator.fill_bytes,
             ReseedingGenerator.try_fill_bytes, ReseedingGenerator.reseedCheck,
             EntropySource.draw, hb, hsup, Prod.mk.injEq,
             Outcome.words.injEq] at hstep;
           obtain ⟨hout, hg2⟩ := hstep;
           subst hg2;
           simp [Op.bytes])
  · intro hb
    have hb2 : ¬ g.bytes_until_reseed ≤ 0 := not_le.mpr hb
    cases op <;>
      (simp [ReseedingGenerator.step, ReseedingGenerator.next_u32,
         ReseedingGenerator.next_u64, ReseedingGenerator.fill_bytes,
         ReseedingGenerator.try_fill_bytes, ReseedingGenerator.reseedCheck,
         EntropySource.draw, hb2, Prod.mk.injEq,
         Outcome.words.injEq] at hstep;
       obtain ⟨hout, hg2⟩ := hstep;
       subst hg2;
       simp [Op.bytes])

/-- Witness for the amended C1: on the budget-exhausted generator `gLow`
a 3-byte fill drew the key 5, invoked entropy exactly once and reset the
counter to the threshold before the emission; on the fresh `g16` a
10-byte fill invoked no entropy and only decremented the counter. -/
theorem c1_budget_discipline_witness :
    (gLow.bytes_until_reseed ≤ 0 ∧
     ∃ k, gLow.entropy_source.supply gLow.entropy_source.calls = some k ∧
       gLowStepped.entropy_source.calls = gLow.entropy_source.calls + 1 ∧
       gLowStepped.bytes_until_reseed =
         (gLow.threshold : Int) - ((Op.tryFillBytes 3).bytes : Int)) ∧
    (0 < g16.bytes_until_reseed ∧
     ((g16.step (Op.tryFillBytes 10)).2.entropy_source.calls =
        g16.entropy_source.calls ∧
      (g16.step (Op.tryFillBytes 10)).2.bytes_until_reseed =
        g16.bytes_until_reseed - ((Op.tryFillBytes 10).bytes : Int))) :=
  ⟨⟨by decide,
    (c1_budget_discipline gLow (Op.tryFillBytes 3) [5, 6, 7] gLowStepped
      rfl).1 (by decide)⟩,
   ⟨by decide,
    (c1_budget_discipline g16 (Op.tryFillBytes 10)
      [0, 1, 2, 3, 4, 5, 6, 7, 8, 9]
      (g16.step (Op.tryFillBytes 10)).2 rfl).2 (by decide)⟩⟩

end RandThread
